import Mathlib

/-!
Verification of the embedding ingestion-and-matching core of a face-recognition
service. The definitions below are a shallow embedding of the Python modules
`utils/embedding_utils.py`, `utils/image_utils.py` and `models/face_model.py`:
machine floats are modelled as real numbers, numpy arrays as lists (or, for
images, as dimension-indexed structures), and raised exceptions as `Except`
values carrying the message and the machine-readable error code.
-/

namespace FaceRec

/-- np.clip: clamp a scalar into the interval `[lo, hi]`
(numpy: `minimum(hi, maximum(lo, x))`). -/
def npClip (x lo hi : ℝ) : ℝ := min hi (max lo x)

/-- Sum of squares of the entries of a vector. -/
def sumSq (v : List ℝ) : ℝ := (v.map (fun x => x * x)).sum

/-- np.linalg.norm on a 1-D array: the L2 norm. -/
noncomputable def l2norm (v : List ℝ) : ℝ := Real.sqrt (sumSq v)

/-- `normalize_embedding` from embedding_utils.py: if the norm is 0 the vector
is returned unchanged, otherwise it is divided componentwise by its norm. -/
noncomputable def normalize_embedding (v : List ℝ) : List ℝ :=
  if l2norm v = 0 then v else v.map (fun x => x / l2norm v)

/-- np.dot of two 1-D arrays. -/
def dotList (a b : List ℝ) : ℝ := (List.zipWith (fun x y => x * y) a b).sum

/-- `cosine_distance` from embedding_utils.py: one minus the clipped dot
product of the two normalized vectors. -/
noncomputable def cosine_distance (embedding1 embedding2 : List ℝ) : ℝ :=
  1 - npClip (dotList (normalize_embedding embedding1) (normalize_embedding embedding2)) (-1) 1

/-- `euclidean_distance` from embedding_utils.py: L2 norm of the difference. -/
noncomputable def euclidean_distance (embedding1 embedding2 : List ℝ) : ℝ :=
  l2norm (List.zipWith (fun x y => x - y) embedding1 embedding2)

/-- `calculate_distance` from embedding_utils.py; the `ValueError` raised for
an unsupported metric is modelled as `.error`. -/
noncomputable def calculate_distance (embedding1 embedding2 : List ℝ) (metric : String) :
    Except String ℝ :=
  if metric = "cosine" then .ok (cosine_distance embedding1 embedding2)
  else if metric = "euclidean" then .ok (euclidean_distance embedding1 embedding2)
  else .error ("Unsupported distance metric: " ++ metric)

/-- `distance_to_similarity` from embedding_utils.py: maps a distance to a
similarity in `[0,1]`, per metric, clamping with `max 0 (min 1 _)`. -/
noncomputable def distance_to_similarity (distance : ℝ) (metric : String) : Except String ℝ :=
  if metric = "cosine" then .ok (max 0 (min 1 (1 - distance / 2)))
  else if metric = "euclidean" then .ok (max 0 (min 1 (1 / (1 + distance))))
  else .error ("Unsupported distance metric: " ++ metric)

lemma max_min_comm_clip (x : ℝ) : max 0 (min 1 x) = min 1 (max 0 x) := by
  rw [max_min_distrib_left]
  norm_num

/-- C4 (amended): `distance_to_similarity` computes `clip(1 - d/2, 0, 1)` for
cosine and `clip(1/(1+d), 0, 1)` for euclidean (in the real-number model);
both results lie in `[0,1]`; the cosine similarity is monotonically
decreasing in the distance over all of ℝ, while the euclidean similarity is
monotonically decreasing only on nonnegative distances; and the three
particular values from the spec hold. -/
theorem distance_to_similarity_spec :
    (∀ d : ℝ, distance_to_similarity d "cosine" = .ok (npClip (1 - d / 2) 0 1))
    ∧ (∀ d : ℝ, distance_to_similarity d "euclidean" = .ok (npClip (1 / (1 + d)) 0 1))
    ∧ (∀ d s : ℝ, distance_to_similarity d "cosine" = .ok s
        ∨ distance_to_similarity d "euclidean" = .ok s → 0 ≤ s ∧ s ≤ 1)
    ∧ (∀ d1 d2 s1 s2 : ℝ, d1 ≤ d2 → distance_to_similarity d1 "cosine" = .ok s1 →
        distance_to_similarity d2 "cosine" = .ok s2 → s2 ≤ s1)
    ∧ (∀ d1 d2 s1 s2 : ℝ, 0 ≤ d1 → d1 ≤ d2 → distance_to_similarity d1 "euclidean" = .ok s1 →
        distance_to_similarity d2 "euclidean" = .ok s2 → s2 ≤ s1)
    ∧ distance_to_similarity 0 "cosine" = .ok 1
    ∧ distance_to_similarity 0 "euclidean" = .ok 1
    ∧ distance_to_similarity 2 "cosine" = .ok 0 := by
  refine ⟨?_, ?_, ?_, ?_, ?_, ?_, ?_, ?_⟩
  · intro d
    simp [distance_to_similarity, npClip, max_min_comm_clip]
  · intro d
    simp [distance_to_similarity, npClip, max_min_comm_clip]
  · intro d s h
    have hs : s = max 0 (min 1 (1 - d / 2)) ∨ s = max 0 (min 1 (1 / (1 + d))) := by
      rcases h with h | h
      · left
        simpa [distance_to_similarity] using h.symm
      · right
        simpa [distance_to_similarity] using h.symm
    rcases hs with rfl | rfl
    · exact ⟨le_max_left _ _, max_le (by norm_num) (min_le_left _ _)⟩
    · exact ⟨le_max_left _ _, max_le (by norm_num) (min_le_left _ _)⟩
  · intro d1 d2 s1 s2 hle h1 h2
    have e1 : s1 = max 0 (min 1 (1 - d1 / 2)) := by
      simpa [distance_to_similarity] using h1.symm
    have e2 : s2 = max 0 (min 1 (1 - d2 / 2)) := by
      simpa [distance_to_similarity] using h2.symm
    subst e1
    subst e2
    exact max_le_max le_rfl (min_le_min le_rfl (by linarith))
  · intro d1 d2 s1 s2 h0 hle h1 h2
    have e1 : s1 = max 0 (min 1 (1 / (1 + d1))) := by
      simpa [distance_to_similarity] using h1.symm
    have e2 : s2 = max 0 (min 1 (1 / (1 + d2))) := by
      simpa [distance_to_similarity] using h2.symm
    subst e1
    subst e2
    have hinv : 1 / (1 + d2) ≤ 1 / (1 + d1) :=
      one_div_le_one_div_of_le (by linarith) (by linarith)
    exact max_le_max le_rfl (min_le_min le_rfl hinv)
  · simp [distance_to_similarity]
  · simp [distance_to_similarity]
  · norm_num [distance_to_similarity]

/-- Witness for C4: the hypotheses of the monotonicity clauses hold at the
concrete inputs 0 and 2 for the cosine metric, and the theorem then yields
the concrete comparison. -/
theorem distance_to_similarity_spec_witness :
    (0 : ℝ) ≤ 2 ∧ distance_to_similarity 0 "cosine" = .ok 1
    ∧ distance_to_similarity 2 "cosine" = .ok 0 ∧ (0 : ℝ) ≤ 1 := by
  refine ⟨by norm_num, distance_to_similarity_spec.2.2.2.2.2.1,
    distance_to_similarity_spec.2.2.2.2.2.2.2, ?_⟩
  exact distance_to_similarity_spec.2.2.2.1 0 2 1 0 (by norm_num)
    distance_to_similarity_spec.2.2.2.2.2.1 distance_to_similarity_spec.2.2.2.2.2.2.2

/-- Counterexample for C4: on negative distances the euclidean similarity is
not monotonically decreasing: at distances −2 < −1/2 the similarities are
0 < 1, i.e. the similarity increases. -/
theorem distance_to_similarity_not_monotone :
    (-2 : ℝ) ≤ -1 / 2
    ∧ distance_to_similarity (-2) "euclidean" = .ok 0
    ∧ distance_to_similarity (-1 / 2) "euclidean" = .ok 1
    ∧ ¬ ((1 : ℝ) ≤ 0) := by
  have hne : ¬ ("euclidean" = "cosine") := by decide
  refine ⟨by norm_num, ?_, ?_, by norm_num⟩
  · norm_num [distance_to_similarity, hne]
  · norm_num [distance_to_similarity, hne]

lemma sumSq_cons (x : ℝ) (xs : List ℝ) : sumSq (x :: xs) = x * x + sumSq xs := by
  simp [sumSq]

lemma sumSq_nonneg (v : List ℝ) : 0 ≤ sumSq v := by
  induction v with
  | nil => simp [sumSq]
  | cons x xs ih =>
    rw [sumSq_cons]
    exact add_nonneg (mul_self_nonneg x) ih

lemma dotList_cons (x y : ℝ) (xs ys : List ℝ) :
    dotList (x :: xs) (y :: ys) = x * y + dotList xs ys := by
  simp [dotList]

lemma dotList_map_div (v : List ℝ) (n : ℝ) :
    dotList (v.map (fun x => x / n)) (v.map (fun x => x / n)) = sumSq v / n ^ 2 := by
  induction v with
  | nil => simp [dotList, sumSq]
  | cons x xs ih =>
    rw [List.map_cons, dotList_cons, sumSq_cons, ih]
    ring

lemma npClip_le_right (x lo hi : ℝ) : npClip x lo hi ≤ hi := min_le_left _ _

lemma le_npClip (x lo hi : ℝ) (h : lo ≤ hi) : lo ≤ npClip x lo hi :=
  le_min h (le_max_left _ _)

lemma cosine_distance_self (v : List ℝ) (h : l2norm v ≠ 0) : cosine_distance v v = 0 := by
  have hs : sumSq v ≠ 0 := by
    intro h0
    exact h (by simp [l2norm, h0, Real.sqrt_zero])
  have hd : dotList (normalize_embedding v) (normalize_embedding v) = 1 := by
    rw [normalize_embedding, if_neg h, dotList_map_div, l2norm, Real.sq_sqrt (sumSq_nonneg v)]
    exact div_self hs
  rw [cosine_distance, hd]
  norm_num [npClip]

/-- C5 (amended): `cosine_distance a b` is exactly
`1 - clip(dot(normalize a, normalize b), -1, 1)`; `normalize_embedding`
returns a zero-norm vector unchanged (no division by zero) and otherwise
divides by the norm; the distance always lies in `[0, 2]`; and for every
vector of nonzero norm `cosine_distance v v = 0` exactly (the zero-norm
vector instead yields distance 1). -/
theorem cosine_distance_spec :
    (∀ a b : List ℝ, cosine_distance a b
      = 1 - npClip (dotList (normalize_embedding a) (normalize_embedding b)) (-1) 1)
    ∧ (∀ v : List ℝ, l2norm v = 0 → normalize_embedding v = v)
    ∧ (∀ v : List ℝ, l2norm v ≠ 0 → normalize_embedding v = v.map (fun x => x / l2norm v))
    ∧ (∀ a b : List ℝ, 0 ≤ cosine_distance a b ∧ cosine_distance a b ≤ 2)
    ∧ (∀ v : List ℝ, l2norm v ≠ 0 → cosine_distance v v = 0) := by
  refine ⟨fun a b => rfl, ?_, ?_, ?_, cosine_distance_self⟩
  · intro v hv
    rw [normalize_embedding, if_pos hv]
  · intro v hv
    rw [normalize_embedding, if_neg hv]
  · intro a b
    constructor
    · have := npClip_le_right (dotList (normalize_embedding a) (normalize_embedding b)) (-1) 1
      rw [cosine_distance]
      linarith
    · have := le_npClip (dotList (normalize_embedding a) (normalize_embedding b)) (-1) 1
        (by norm_num)
      rw [cosine_distance]
      linarith

/-- Witness for C5: at the concrete nonzero vector `[1]` the norm is nonzero
and the self-distance is exactly 0. -/
theorem cosine_distance_spec_witness :
    l2norm [(1 : ℝ)] ≠ 0 ∧ cosine_distance [(1 : ℝ)] [(1 : ℝ)] = 0 := by
  have h : l2norm [(1 : ℝ)] ≠ 0 := by
    rw [l2norm]
    norm_num [sumSq]
  exact ⟨h, cosine_distance_spec.2.2.2.2 _ h⟩

/-- Counterexample for C5: for the zero vector the code returns
`cosine_distance v v = 1`, not approximately 0 (it is not even below the
spec's own tolerance of 1/1000). -/
theorem cosine_distance_self_zero_vector :
    cosine_distance [(0 : ℝ)] [(0 : ℝ)] = 1
    ∧ ¬ (cosine_distance [(0 : ℝ)] [(0 : ℝ)] < 1 / 1000) := by
  have hz : l2norm [(0 : ℝ)] = 0 := by
    rw [l2norm]
    norm_num [sumSq, Real.sqrt_zero]
  have hn : normalize_embedding [(0 : ℝ)] = [0] := by
    rw [normalize_embedding, if_pos hz]
  have h1 : cosine_distance [(0 : ℝ)] [(0 : ℝ)] = 1 := by
    rw [cosine_distance, hn]
    norm_num [dotList, npClip]
  refine ⟨h1, ?_⟩
  rw [h1]
  norm_num

lemma dotList_comm (a b : List ℝ) : dotList a b = dotList b a := by
  induction a generalizing b with
  | nil => cases b <;> simp [dotList]
  | cons x xs ih =>
    cases b with
    | nil => simp [dotList]
    | cons y ys => rw [dotList_cons, dotList_cons, mul_comm, ih]

lemma sumSq_zipWith_sub_comm (a b : List ℝ) :
    sumSq (List.zipWith (fun x y => x - y) a b)
      = sumSq (List.zipWith (fun x y => x - y) b a) := by
  induction a generalizing b with
  | nil => cases b <;> simp [sumSq]
  | cons x xs ih =>
    cases b with
    | nil => simp [sumSq]
    | cons y ys =>
      rw [List.zipWith_cons_cons, List.zipWith_cons_cons, sumSq_cons, sumSq_cons, ih ys]
      ring

/-- C10: both distance functions are symmetric in their two (equal-length)
vector arguments. -/
theorem distance_symm (a b : List ℝ) (h : a.length = b.length) :
    cosine_distance a b = cosine_distance b a
    ∧ euclidean_distance a b = euclidean_distance b a := by
  constructor
  · rw [cosine_distance, cosine_distance, dotList_comm]
  · rw [euclidean_distance, euclidean_distance, l2norm, l2norm, sumSq_zipWith_sub_comm]

/-- Witness for C10: the symmetry instantiated at the equal-length pair
`[1, 2]` and `[3, 4]`. -/
theorem distance_symm_witness :
    ([(1 : ℝ), 2].length = [(3 : ℝ), 4].length)
    ∧ (cosine_distance [(1 : ℝ), 2] [(3 : ℝ), 4] = cosine_distance [(3 : ℝ), 4] [(1 : ℝ), 2]
      ∧ euclidean_distance [(1 : ℝ), 2] [(3 : ℝ), 4]
        = euclidean_distance [(3 : ℝ), 4] [(1 : ℝ), 2]) :=
  ⟨rfl, distance_symm _ _ rfl⟩

/-- np.linalg.norm applied to a 2-D array: the Frobenius norm. -/
noncomputable def frobNorm (m : List (List ℝ)) : ℝ := Real.sqrt ((m.map sumSq).sum)

/-- `normalize_embedding` from embedding_utils.py as it executes on the 2-D
reference array inside `batch_calculate_distances`: np.linalg.norm of a
matrix is its Frobenius norm and the division is elementwise over the whole
matrix. -/
noncomputable def normalize_embedding_2d (m : List (List ℝ)) : List (List ℝ) :=
  if frobNorm m = 0 then m else m.map (fun row => row.map (fun x => x / frobNorm m))

/-- `batch_calculate_distances` from embedding_utils.py. For cosine it
normalizes the query and the whole reference matrix, takes the rowwise dot
products `np.dot(refs_norm, query_norm)`, and returns `1 - sims` with no
clipping; for euclidean it returns the rowwise L2 norms of `refs - query`. -/
noncomputable def batch_calculate_distances (query_embedding : List ℝ)
    (reference_embeddings : List (List ℝ)) (metric : String) : Except String (List ℝ) :=
  if metric = "cosine" then
    let query_norm := normalize_embedding query_embedding
    let refs_norm := normalize_embedding_2d reference_embeddings
    .ok (refs_norm.map (fun row => 1 - dotList row query_norm))
  else if metric = "euclidean" then
    .ok (reference_embeddings.map
      (fun row => l2norm (List.zipWith (fun x y => x - y) row query_embedding)))
  else .error ("Unsupported distance metric: " ++ metric)

lemma l2norm_one_zero : l2norm [(1 : ℝ), 0] = 1 := by
  rw [l2norm]
  norm_num [sumSq]

lemma normalize_one_zero : normalize_embedding [(1 : ℝ), 0] = [1, 0] := by
  rw [normalize_embedding, l2norm_one_zero, if_neg (by norm_num : (1 : ℝ) ≠ 0)]
  norm_num

/-- C1: evaluation at the failing input. At query `[1,0]`, references
`[[1,0],[0,1]]`, metric cosine, the per-pair `calculate_distance` gives
distance 0 for reference row 0, while `batch_calculate_distances` gives
`1 - 1/sqrt 2 ≠ 0` there: the batch path normalizes the reference matrix by
its Frobenius norm instead of normalizing each row (and also omits the
clip), so it is not equivalent to the per-pair function. -/
theorem batch_calculate_distances_diverges :
    calculate_distance [(1 : ℝ), 0] [(1 : ℝ), 0] "cosine" = .ok 0
    ∧ batch_calculate_distances [(1 : ℝ), 0] [[(1 : ℝ), 0], [(0 : ℝ), 1]] "cosine"
      = .ok [1 - 1 / Real.sqrt 2, 1]
    ∧ 1 - 1 / Real.sqrt 2 ≠ (0 : ℝ) := by
  have hsq2 : (1 : ℝ) < Real.sqrt 2 := by
    rw [show (1 : ℝ) = Real.sqrt 1 from (Real.sqrt_one).symm]
    exact Real.sqrt_lt_sqrt (by norm_num) (by norm_num)
  have hsq2pos : (0 : ℝ) < Real.sqrt 2 := lt_trans one_pos hsq2
  refine ⟨?_, ?_, ?_⟩
  · have hne : l2norm [(1 : ℝ), 0] ≠ 0 := by
      rw [l2norm_one_zero]
      norm_num
    simp [calculate_distance, cosine_distance_self _ hne]
  · have hF : frobNorm [[(1 : ℝ), 0], [(0 : ℝ), 1]] = Real.sqrt 2 := by
      rw [frobNorm]
      norm_num [sumSq]
    have hFne : frobNorm [[(1 : ℝ), 0], [(0 : ℝ), 1]] ≠ 0 := by
      rw [hF]
      exact ne_of_gt hsq2pos
    rw [batch_calculate_distances, if_pos rfl]
    rw [normalize_embedding_2d, if_neg hFne, hF, normalize_one_zero]
    norm_num [dotList]
  · have hlt : 1 / Real.sqrt 2 < 1 := by
      rw [div_lt_one hsq2pos]
      exact hsq2
    intro hEq
    rw [sub_eq_zero] at hEq
    rw [← hEq] at hlt
    exact lt_irrefl _ hlt

/-- `ErrorCode` from schemas/api_schemas.py. -/
inductive ErrCode
  | INVALID_IMAGE
  | NO_FACE_DETECTED
  | MULTIPLE_FACES_DETECTED
  | IMAGE_TOO_LARGE
  | UNSUPPORTED_FORMAT
  | MODEL_NOT_LOADED
  | INVALID_EMBEDDING
  | PROCESSING_ERROR
deriving DecidableEq

/-- `ImageProcessingError` from image_utils.py: message plus machine-readable
error code. -/
structure ImageProcessingError where
  message : String
  error_code : ErrCode

/-- A 3-D numpy array (height, width, channels) with its pixel data. -/
structure NpArray3 where
  height : ℕ
  width : ℕ
  channels : ℕ
  data : ℕ → ℕ → ℕ → ℝ

/-- A numpy image: a 2-D (grayscale) or 3-D (channelled) array, mirroring the
two `len(image.shape)` cases that image_utils.py distinguishes. -/
inductive NpImage
  | d2 (height width : ℕ) (data : ℕ → ℕ → ℝ)
  | d3 (arr : NpArray3)

/-- numpy's `.size`: total number of elements. -/
def NpImage.size : NpImage → ℕ
  | .d2 h w _ => h * w
  | .d3 a => a.height * a.width * a.channels

/-- `validate_image` from image_utils.py: returns `(is_valid, error_message)`.
The `None`/non-ndarray branches are outside the model (an `NpImage` is always
a 2-D or 3-D array). -/
def validate_image (image : NpImage) : Bool × Option String :=
  if image.size = 0 then (false, some "Image is empty")
  else
    match image with
    | .d3 a =>
      if ¬ (a.channels = 1 ∨ a.channels = 3 ∨ a.channels = 4) then
        (false, some ("Invalid number of channels: " ++ toString a.channels
          ++ ". Expected 1, 3, or 4"))
      else if a.height < 32 ∨ a.width < 32 then
        (false, some ("Image too small: " ++ toString a.width ++ "x" ++ toString a.height
          ++ ". Minimum size: 32x32"))
      else if a.height > 8192 ∨ a.width > 8192 then
        (false, some ("Image too large: " ++ toString a.width ++ "x" ++ toString a.height
          ++ ". Maximum size: 8192x8192"))
      else (true, none)
    | .d2 h w _ =>
      if h < 32 ∨ w < 32 then
        (false, some ("Image too small: " ++ toString w ++ "x" ++ toString h
          ++ ". Minimum size: 32x32"))
      else if h > 8192 ∨ w > 8192 then
        (false, some ("Image too large: " ++ toString w ++ "x" ++ toString h
          ++ ". Maximum size: 8192x8192"))
      else (true, none)

/-- `cv2.cvtColor(image, cv2.COLOR_GRAY2BGR)`: expand a 2-D grayscale array
to 3 channels by duplicating the gray value. -/
def cvtColor_GRAY2BGR (h w : ℕ) (data : ℕ → ℕ → ℝ) : NpArray3 :=
  ⟨h, w, 3, fun i j _ => data i j⟩

/-- `cv2.cvtColor(image, cv2.COLOR_BGRA2BGR)`: drop the alpha channel. -/
def cvtColor_BGRA2BGR (a : NpArray3) : NpArray3 :=
  ⟨a.height, a.width, 3, fun i j c => a.data i j c⟩

/-- `preprocess_image` from image_utils.py: validate, then convert a 2-D
array via GRAY2BGR and a 4-channel 3-D array via BGRA2BGR; any other image is
returned unchanged. -/
def preprocess_image (image : NpImage) : Except ImageProcessingError NpImage :=
  match validate_image image with
  | (false, error_msg) => .error ⟨error_msg.getD "", .INVALID_IMAGE⟩
  | (true, _) =>
    match image with
    | .d2 h w data => .ok (.d3 (cvtColor_GRAY2BGR h w data))
    | .d3 a => if a.channels = 4 then .ok (.d3 (cvtColor_BGRA2BGR a)) else .ok (.d3 a)

/-- A constant-zero pixel function, used for concrete test images. -/
def zeroPix : ℕ → ℕ → ℕ → ℝ := fun _ _ _ => 0

/-- C9: evaluation at the failing input. The 32×32×1 buffer passes
`validate_image` (channel count 1 is allowed), yet `preprocess_image`
returns it unchanged with 1 channel instead of expanding it to 3: only the
2-D grayscale case is expanded, so the "exactly 3 channels after
preprocessing" invariant fails. The 2-D, 4-channel and 3-channel cases
behave as specified. -/
theorem preprocess_image_one_channel_bug :
    validate_image (NpImage.d3 ⟨32, 32, 1, zeroPix⟩) = (true, none)
    ∧ preprocess_image (NpImage.d3 ⟨32, 32, 1, zeroPix⟩) = .ok (NpImage.d3 ⟨32, 32, 1, zeroPix⟩)
    ∧ (∃ a : NpArray3, preprocess_image (NpImage.d3 ⟨32, 32, 1, zeroPix⟩) = .ok (.d3 a)
        ∧ a.channels = 1 ∧ ¬ a.channels = 3)
    ∧ preprocess_image (NpImage.d2 32 32 (fun i j => zeroPix i j 0))
      = .ok (.d3 ⟨32, 32, 3, fun i j _ => zeroPix i j 0⟩)
    ∧ preprocess_image (NpImage.d3 ⟨32, 32, 4, zeroPix⟩)
      = .ok (.d3 ⟨32, 32, 3, fun i j c => zeroPix i j c⟩)
    ∧ preprocess_image (NpImage.d3 ⟨32, 32, 3, zeroPix⟩) = .ok (NpImage.d3 ⟨32, 32, 3, zeroPix⟩) := by
  refine ⟨rfl, rfl, ⟨⟨32, 32, 1, zeroPix⟩, rfl, rfl, by decide⟩, rfl, rfl, rfl⟩

/-- Python `str.startswith`, modelled on the character sequence of the
strings (byte- and character-prefix agree here). -/
def str_startswith (s pre : String) : Bool := pre.data.isPrefixOf s.data

/-- The data-URI stripping at the top of `decode_base64_image`:
`base64_string.split(",", 1)[1]` when the string contains a comma and starts
with "data:". -/
def strip_data_uri (s : String) : String :=
  if s.contains ',' && str_startswith s "data:" then
    String.intercalate "," ((s.splitOn ",").tail)
  else s

/-- `decode_base64_image` from image_utils.py, parameterized by the standard
library's base64 decoder and by the downstream pixel decoder (passed as a
function so theorems can show when the result does not depend on it): strip
the data-URI prefix, base64-decode, reject oversized raw byte payloads, then
pixel-decode. -/
def decode_base64_image (b64decode : String → Except String (List ℕ))
    (loadBytes : List ℕ → Except ImageProcessingError NpImage)
    (max_image_size : ℕ) (base64_string : String) : Except ImageProcessingError NpImage :=
  match b64decode (strip_data_uri base64_string) with
  | .error e => .error ⟨"Invalid base64 encoding: " ++ e, .INVALID_IMAGE⟩
  | .ok image_bytes =>
    if image_bytes.length > max_image_size then
      .error ⟨"Image size (" ++ toString image_bytes.length
        ++ " bytes) exceeds maximum allowed (" ++ toString max_image_size ++ " bytes)",
        .IMAGE_TOO_LARGE⟩
    else loadBytes image_bytes

/-- Outcome of `requests.get` for a URL (after redirects): a timeout, another
transport failure, or a response with its final status and body bytes. -/
inductive HttpOutcome
  | timeout
  | transportError (msg : String)
  | response (status : ℕ) (body : List ℕ)

/-- `fetch_image_from_url` from image_utils.py, parameterized by the
downstream pixel decoder and the HTTP outcome. `response.raise_for_status()`
raises `requests.HTTPError` (a `RequestException`) for status ≥ 400, which
the handler turns into an INVALID_IMAGE failure, exactly like any other
`RequestException`; a timeout becomes PROCESSING_ERROR. -/
def fetch_image_from_url (loadBytes : List ℕ → Except ImageProcessingError NpImage)
    (max_image_size : ℕ) (url : String) (outcome : HttpOutcome) :
    Except ImageProcessingError NpImage :=
  if !(str_startswith url "http://" || str_startswith url "https://") then
    .error ⟨"Invalid URL format. URL must start with http:// or https://", .INVALID_IMAGE⟩
  else
    match outcome with
    | .timeout =>
      .error ⟨"Request timeout while fetching image from URL: " ++ url, .PROCESSING_ERROR⟩
    | .transportError msg =>
      .error ⟨"Failed to fetch image from URL: " ++ msg, .INVALID_IMAGE⟩
    | .response status body =>
      if 400 ≤ status then
        .error ⟨"Failed to fetch image from URL: " ++ toString status ++ " Error for url: "
          ++ url, .INVALID_IMAGE⟩
      else if body.length > max_image_size then
        .error ⟨"Image size (" ++ toString body.length
          ++ " bytes) exceeds maximum allowed (" ++ toString max_image_size ++ " bytes)",
          .IMAGE_TOO_LARGE⟩
      else loadBytes body

/-- Result of `PIL.Image.open` plus the RGB→BGR conversion, abstracted:
either the bytes are not a parsable image, or they decode to an image with a
reported format. -/
inductive PilResult
  | fail (msg : String)
  | image (format : Option String) (img : NpImage)

/-- `load_image_from_bytes` from image_utils.py, parameterized by the PIL
decoder: unparsable bytes give INVALID_IMAGE; a recognized but disallowed
format gives UNSUPPORTED_FORMAT; otherwise the decoded image is returned. -/
def load_image_from_bytes (pilOpen : List ℕ → PilResult)
    (allowed_image_formats : List String) (image_bytes : List ℕ) :
    Except ImageProcessingError NpImage :=
  match pilOpen image_bytes with
  | .fail msg => .error ⟨"Failed to load image from bytes: " ++ msg, .INVALID_IMAGE⟩
  | .image fmt img =>
    match fmt with
    | some f =>
      if f.toLower ∈ allowed_image_formats then .ok img
      else .error ⟨"Unsupported image format: " ++ f, .UNSUPPORTED_FORMAT⟩
    | none => .ok img

/-- settings.max_image_size default: 10 MiB. -/
def default_max_image_size : ℕ := 10 * 1024 * 1024

/-- settings.allowed_image_formats default. -/
def default_allowed_image_formats : List String := ["jpg", "jpeg", "png", "bmp", "webp"]

/-- C7: on both ingestion paths a payload whose raw decoded byte length
exceeds the configured maximum fails with IMAGE_TOO_LARGE, and the result is
independent of the pixel decoder `loadBytes` (universally quantified), so
no pixel decode is attempted; the size hypothesis is on the decoded byte
list only, never on the encoded string. -/
theorem ingestion_size_cap (b64decode : String → Except String (List ℕ))
    (loadBytes : List ℕ → Except ImageProcessingError NpImage)
    (max_image_size : ℕ) (base64_string url : String) (image_bytes body : List ℕ)
    (status : ℕ)
    (hdec : b64decode (strip_data_uri base64_string) = .ok image_bytes)
    (hsize : image_bytes.length > max_image_size)
    (hurl : (str_startswith url "http://" || str_startswith url "https://") = true)
    (hstatus : status < 400)
    (hbody : body.length > max_image_size) :
    decode_base64_image b64decode loadBytes max_image_size base64_string
      = .error ⟨"Image size (" ++ toString image_bytes.length
          ++ " bytes) exceeds maximum allowed (" ++ toString max_image_size ++ " bytes)",
          .IMAGE_TOO_LARGE⟩
    ∧ fetch_image_from_url loadBytes max_image_size url (.response status body)
      = .error ⟨"Image size (" ++ toString body.length
          ++ " bytes) exceeds maximum allowed (" ++ toString max_image_size ++ " bytes)",
          .IMAGE_TOO_LARGE⟩ := by
  constructor
  · rw [decode_base64_image, hdec]
    exact if_pos hsize
  · rw [fetch_image_from_url, hurl]
    rw [if_neg (by simp)]
    rw [if_neg (not_le.mpr hstatus), if_pos hbody]

/-- Witness for C7: an encoded string of 2 characters whose decoded payload
is 11 bytes, with a cap of 10 bytes, triggers IMAGE_TOO_LARGE on the base64
path; a 200 response with the same 11-byte body triggers it on the URL
path. -/
theorem ingestion_size_cap_witness :
    ((fun _ : String => Except.ok (ε := String) (List.replicate 11 (0 : ℕ)))
        (strip_data_uri "xx") = .ok (List.replicate 11 (0 : ℕ)))
    ∧ (List.replicate 11 (0 : ℕ)).length > 10
    ∧ (str_startswith "http://img" "http://" || str_startswith "http://img" "https://") = true
    ∧ 200 < 400
    ∧ decode_base64_image (fun _ => .ok (List.replicate 11 (0 : ℕ)))
        (fun _ => .error ⟨"", .PROCESSING_ERROR⟩) 10 "xx"
      = .error ⟨"Image size (" ++ toString (List.replicate 11 (0 : ℕ)).length
          ++ " bytes) exceeds maximum allowed (" ++ toString (10 : ℕ) ++ " bytes)",
          .IMAGE_TOO_LARGE⟩
    ∧ fetch_image_from_url (fun _ => .error ⟨"", .PROCESSING_ERROR⟩) 10 "http://img"
        (.response 200 (List.replicate 11 (0 : ℕ)))
      = .error ⟨"Image size (" ++ toString (List.replicate 11 (0 : ℕ)).length
          ++ " bytes) exceeds maximum allowed (" ++ toString (10 : ℕ) ++ " bytes)",
          .IMAGE_TOO_LARGE⟩ := by
  have h := ingestion_size_cap (fun _ => .ok (List.replicate 11 (0 : ℕ)))
    (fun _ => .error ⟨"", .PROCESSING_ERROR⟩) 10 "xx" "http://img"
    (List.replicate 11 (0 : ℕ)) (List.replicate 11 (0 : ℕ)) 200
    rfl (by simp) (by decide) (by omega) (by simp)
  exact ⟨rfl, by simp, by decide, by omega, h.1, h.2⟩

/-- C8 (amended): on the URL path a timeout yields kind PROCESSING_ERROR,
which is distinguishable from the INVALID_IMAGE kind used when fetched bytes
fail to pixel-decode; but a non-2xx response (status ≥ 400) and any other
transport failure yield kind INVALID_IMAGE — the very same kind as
undecodable bytes — and are distinguishable only by message. -/
theorem fetch_error_kinds (pilOpen : List ℕ → PilResult) (allowed : List String)
    (loadBytes : List ℕ → Except ImageProcessingError NpImage)
    (max_image_size : ℕ) (url tmsg pmsg : String) (status : ℕ) (body bytes : List ℕ)
    (hurl : (str_startswith url "http://" || str_startswith url "https://") = true) :
    fetch_image_from_url loadBytes max_image_size url .timeout
      = .error ⟨"Request timeout while fetching image from URL: " ++ url, .PROCESSING_ERROR⟩
    ∧ fetch_image_from_url loadBytes max_image_size url (.transportError tmsg)
      = .error ⟨"Failed to fetch image from URL: " ++ tmsg, .INVALID_IMAGE⟩
    ∧ (400 ≤ status → fetch_image_from_url loadBytes max_image_size url (.response status body)
        = .error ⟨"Failed to fetch image from URL: " ++ toString status ++ " Error for url: "
            ++ url, .INVALID_IMAGE⟩)
    ∧ (pilOpen bytes = .fail pmsg → load_image_from_bytes pilOpen allowed bytes
        = .error ⟨"Failed to load image from bytes: " ++ pmsg, .INVALID_IMAGE⟩)
    ∧ ErrCode.PROCESSING_ERROR ≠ ErrCode.INVALID_IMAGE := by
  refine ⟨?_, ?_, ?_, ?_, by decide⟩
  · rw [fetch_image_from_url, hurl, if_neg (by simp)]
  · rw [fetch_image_from_url, hurl, if_neg (by simp)]
  · intro hs
    rw [fetch_image_from_url, hurl, if_neg (by simp)]
    exact if_pos hs
  · intro hp
    rw [load_image_from_bytes, hp]

/-- Witness for C8: the amended kinds instantiated at a concrete URL,
status 404, and a concrete undecodable byte payload. -/
theorem fetch_error_kinds_witness :
    (str_startswith "http://example.com/a" "http://"
      || str_startswith "http://example.com/a" "https://") = true
    ∧ (400 : ℕ) ≤ 404
    ∧ ((fun _ : List ℕ => PilResult.fail "cannot identify image file") [0]
        = PilResult.fail "cannot identify image file")
    ∧ fetch_image_from_url (fun _ => .error ⟨"", .PROCESSING_ERROR⟩)
        default_max_image_size "http://example.com/a" .timeout
      = .error ⟨"Request timeout while fetching image from URL: " ++ "http://example.com/a",
          .PROCESSING_ERROR⟩
    ∧ fetch_image_from_url (fun _ => .error ⟨"", .PROCESSING_ERROR⟩)
        default_max_image_size "http://example.com/a" (.response 404 [])
      = .error ⟨"Failed to fetch image from URL: " ++ toString (404 : ℕ) ++ " Error for url: "
          ++ "http://example.com/a", .INVALID_IMAGE⟩
    ∧ load_image_from_bytes (fun _ => PilResult.fail "cannot identify image file")
        default_allowed_image_formats [0]
      = .error ⟨"Failed to load image from bytes: " ++ "cannot identify image file",
          .INVALID_IMAGE⟩ := by
  have h := fetch_error_kinds (fun _ => PilResult.fail "cannot identify image file")
    default_allowed_image_formats (fun _ => .error ⟨"", .PROCESSING_ERROR⟩)
    default_max_image_size "http://example.com/a" "t" "cannot identify image file"
    404 [] [0] (by decide)
  exact ⟨by decide, by omega, rfl, h.1, h.2.2.1 (by omega), h.2.2.2.1 rfl⟩

/-- Counterexample for C8: with the real pixel decoder plugged in, a 404
response and a 200 response whose body is undecodable both fail with the
SAME error kind INVALID_IMAGE, so the non-2xx failure is not distinguishable
by error kind from the invalid-image failure. -/
theorem fetch_error_kinds_not_distinguishable :
    (∃ e1 : ImageProcessingError,
      fetch_image_from_url
        (load_image_from_bytes (fun _ => PilResult.fail "cannot identify image file")
          default_allowed_image_formats)
        default_max_image_size "http://example.com/a" (.response 404 []) = .error e1
      ∧ e1.error_code = .INVALID_IMAGE)
    ∧ (∃ e2 : ImageProcessingError,
      fetch_image_from_url
        (load_image_from_bytes (fun _ => PilResult.fail "cannot identify image file")
          default_allowed_image_formats)
        default_max_image_size "http://example.com/a" (.response 200 [0]) = .error e2
      ∧ e2.error_code = .INVALID_IMAGE) :=
  ⟨⟨_, rfl, rfl⟩, ⟨_, rfl, rfl⟩⟩

/-- A machine float as the adapter sees it: a finite real, NaN, or a signed
infinity. Needed because the NaN/Inf checks inspect these non-finite
values. -/
inductive FVal
  | finite (x : ℝ)
  | nan
  | inf
  | ninf

/-- np.isnan on one value. -/
def FVal.isNaN : FVal → Bool
  | .nan => true
  | _ => false

/-- np.isinf on one value. -/
def FVal.isInf : FVal → Bool
  | .inf => true
  | .ninf => true
  | _ => false

/-- `is_valid_embedding` from embedding_utils.py: the length must equal the
expected size and no component may be NaN or infinite. (The isinstance guard
and the conversion try/except never fire on a well-typed float list.) -/
def is_valid_embedding (embedding : List FVal) (expected_size : ℕ) : Bool :=
  if embedding.length ≠ expected_size then false
  else if embedding.any (fun v => v.isNaN) || embedding.any (fun v => v.isInf) then false
  else true

/-- `FaceModelError` from face_model.py: message plus error code. -/
structure FaceModelError where
  message : String
  error_code : ErrCode

/-- One face reported by the InsightFace backend: its embedding (possibly
None) and its optional detection score. -/
structure DetectedFace where
  embedding : Option (List FVal)
  det_score : Option ℝ

/-- `FaceRecognitionModel.get_embedding` from face_model.py, with the opaque
backend call `self.model.get(image)` abstracted as the list `faces` it
returns, and `self.model is None` abstracted as `loaded = false`. Enforces:
not loaded → MODEL_NOT_LOADED; zero faces → NO_FACE_DETECTED; several faces
→ MULTIPLE_FACES_DETECTED (message carries the count); one face → the
embedding is checked for None and for its length against `embedding_size`
(INVALID_EMBEDDING on failure) and returned with the detection score. -/
def get_embedding (loaded : Bool) (embedding_size : ℕ) (return_detection_info : Bool)
    (faces : List DetectedFace) : Except FaceModelError (List FVal × Option ℝ) :=
  if !loaded then
    .error ⟨"Face recognition model is not loaded", .MODEL_NOT_LOADED⟩
  else
    match faces with
    | [] => .error ⟨"No face detected in the image", .NO_FACE_DETECTED⟩
    | [face] =>
      match face.embedding with
      | none =>
        .error ⟨"Invalid embedding extracted. Expected size " ++ toString embedding_size
          ++ ", got None", .INVALID_EMBEDDING⟩
      | some emb =>
        if emb.length ≠ embedding_size then
          .error ⟨"Invalid embedding extracted. Expected size " ++ toString embedding_size
            ++ ", got " ++ toString emb.length, .INVALID_EMBEDDING⟩
        else
          .ok (emb, if return_detection_info then face.det_score else none)
    | _ :: _ :: rest =>
      .error ⟨"Multiple faces detected (" ++ toString (rest.length + 2)
        ++ "). Please provide an image with a single face.", .MULTIPLE_FACES_DETECTED⟩

/-- C6: the adapter's single-face policy. Not loaded fails with
MODEL_NOT_LOADED whatever the backend would report; zero faces fails with
NO_FACE_DETECTED; two or more faces fails with MULTIPLE_FACES_DETECTED and
the message carries the face count; and any success means exactly one face
was detected, whose embedding and (if requested) detection score are
returned. -/
theorem get_embedding_single_face_policy (loaded : Bool) (embedding_size : ℕ)
    (return_detection_info : Bool) (faces : List DetectedFace) :
    (loaded = false → get_embedding loaded embedding_size return_detection_info faces
      = .error ⟨"Face recognition model is not loaded", .MODEL_NOT_LOADED⟩)
    ∧ (loaded = true → faces = [] →
      get_embedding loaded embedding_size return_detection_info faces
        = .error ⟨"No face detected in the image", .NO_FACE_DETECTED⟩)
    ∧ (loaded = true → 2 ≤ faces.length →
      get_embedding loaded embedding_size return_detection_info faces
        = .error ⟨"Multiple faces detected (" ++ toString faces.length
            ++ "). Please provide an image with a single face.", .MULTIPLE_FACES_DETECTED⟩)
    ∧ (∀ emb score, get_embedding loaded embedding_size return_detection_info faces
        = .ok (emb, score) →
      loaded = true ∧ ∃ face, faces = [face] ∧ face.embedding = some emb
        ∧ emb.length = embedding_size
        ∧ score = if return_detection_info then face.det_score else none) := by
  refine ⟨?_, ?_, ?_, ?_⟩
  · intro h
    subst h
    rfl
  · intro h hf
    subst h
    subst hf
    rfl
  · intro h hlen
    subst h
    match faces with
    | [] => simp at hlen
    | [face] => simp at hlen
    | f1 :: f2 :: rest =>
      have hcount : (f1 :: f2 :: rest).length = rest.length + 2 := by
        simp
      rw [get_embedding, hcount]
      rfl
  · intro emb score hok
    cases loaded with
    | false => simp [get_embedding] at hok
    | true =>
      refine ⟨rfl, ?_⟩
      match faces with
      | [] => simp [get_embedding] at hok
      | [face] =>
        cases hemb : face.embedding with
        | none => simp [get_embedding, hemb] at hok
        | some e =>
          simp only [get_embedding, hemb, Bool.not_true, Bool.false_eq_true, if_false,
            ne_eq] at hok
          by_cases hlen : e.length = embedding_size
          · rw [if_neg (not_not_intro hlen)] at hok
            have hpair := Except.ok.inj hok
            have he : e = emb := congrArg Prod.fst hpair
            have hs : (if return_detection_info then face.det_score else none) = score :=
              congrArg Prod.snd hpair
            exact ⟨face, rfl, by rw [hemb, he], he ▸ hlen, hs.symm⟩
          · rw [if_pos hlen] at hok
            exact Except.noConfusion hok
      | f1 :: f2 :: rest => simp [get_embedding] at hok

/-- Witness for C6: the policy instantiated at the concrete backend outputs
with zero, two, and one detected face, and with the model unloaded. -/
theorem get_embedding_single_face_policy_witness :
    get_embedding false 512 true [] = .error ⟨"Face recognition model is not loaded",
        .MODEL_NOT_LOADED⟩
    ∧ get_embedding true 512 true [] = .error ⟨"No face detected in the image",
        .NO_FACE_DETECTED⟩
    ∧ get_embedding true 512 true [⟨some [FVal.finite 1], some (1 / 2)⟩,
        ⟨some [FVal.finite 1], some (1 / 2)⟩]
      = .error ⟨"Multiple faces detected (" ++ toString (2 : ℕ)
          ++ "). Please provide an image with a single face.", .MULTIPLE_FACES_DETECTED⟩
    ∧ (true = true ∧ ∃ face : DetectedFace,
        [(⟨some [FVal.finite 1], some (1 / 2)⟩ : DetectedFace)] = [face]
        ∧ face.embedding = some [FVal.finite 1]
        ∧ [FVal.finite 1].length = 1
        ∧ (some (1 / 2) : Option ℝ) = if true then face.det_score else none) := by
  have h2 := (get_embedding_single_face_policy true 512 true
    [⟨some [FVal.finite 1], some (1 / 2)⟩, ⟨some [FVal.finite 1], some (1 / 2)⟩]).2.2.1
    rfl (by simp)
  have h4 := (get_embedding_single_face_policy true 1 true
    [⟨some [FVal.finite 1], some (1 / 2)⟩]).2.2.2 [FVal.finite 1] (some (1 / 2)) rfl
  exact ⟨(get_embedding_single_face_policy false 512 true []).1 rfl,
    (get_embedding_single_face_policy true 512 true []).2.1 rfl rfl, h2, h4⟩

/-- A 512-length embedding every component of which is NaN. -/
def nanEmb : List FVal := List.replicate 512 FVal.nan

/-- Counterexample for C2: a backend embedding of the configured length 512
whose every component is NaN passes the adapter's validation — the success
path returns it instead of failing with INVALID_EMBEDDING, because
`get_embedding` checks only None-ness and length, never NaN/Inf. -/
theorem get_embedding_accepts_nan :
    get_embedding true 512 true [⟨some nanEmb, none⟩] = .ok (nanEmb, none)
    ∧ nanEmb.any (fun v => v.isNaN) = true
    ∧ is_valid_embedding nanEmb 512 = false := by
  have hlen : nanEmb.length = 512 := by
    simp only [nanEmb, List.length_replicate]
  have hmem : FVal.nan ∈ nanEmb := by
    simp only [nanEmb]
    exact List.mem_replicate.mpr ⟨by norm_num, rfl⟩
  have hnan : nanEmb.any (fun v => v.isNaN) = true := by
    simp only [List.any_eq_true]
    exact ⟨FVal.nan, hmem, rfl⟩
  refine ⟨?_, hnan, ?_⟩
  · simp [get_embedding, hlen]
  · rw [is_valid_embedding, if_neg (not_not_intro hlen)]
    simp [hnan]

/-- C2 (amended): on the success path (model loaded, exactly one face) the
adapter validates the embedding only for presence and length: a None
embedding or one whose length differs from the configured size fails with
INVALID_EMBEDDING, but a right-length embedding is returned even when it
contains NaN or Inf components — the NaN/Inf check lives only in the
standalone `is_valid_embedding` utility, which the adapter never calls. -/
theorem get_embedding_validates_length_only (embedding_size : ℕ)
    (return_detection_info : Bool) (face : DetectedFace) :
    (face.embedding = none →
      get_embedding true embedding_size return_detection_info [face]
        = .error ⟨"Invalid embedding extracted. Expected size " ++ toString embedding_size
            ++ ", got None", .INVALID_EMBEDDING⟩)
    ∧ (∀ emb, face.embedding = some emb → emb.length ≠ embedding_size →
      get_embedding true embedding_size return_detection_info [face]
        = .error ⟨"Invalid embedding extracted. Expected size " ++ toString embedding_size
            ++ ", got " ++ toString emb.length, .INVALID_EMBEDDING⟩)
    ∧ (∀ emb, face.embedding = some emb → emb.length = embedding_size →
      get_embedding true embedding_size return_detection_info [face]
        = .ok (emb, if return_detection_info then face.det_score else none))
    ∧ (∀ emb : List FVal, emb.length = embedding_size → emb.any (fun v => v.isNaN) = true →
      is_valid_embedding emb embedding_size = false) := by
  refine ⟨?_, ?_, ?_, ?_⟩
  · intro h
    rw [get_embedding, if_neg (by simp), h]
  · intro emb h hlen
    rw [get_embedding, if_neg (by simp), h]
    exact if_pos hlen
  · intro emb h hlen
    rw [get_embedding, if_neg (by simp), h]
    exact if_neg (not_not_intro hlen)
  · intro emb hlen hnan
    rw [is_valid_embedding, if_neg (not_not_intro hlen)]
    simp [hnan]

/-- Witness for C2 (amended): concrete instantiations — a None embedding is
rejected, a wrong-length embedding is rejected, and a NaN-filled embedding
of the right length 512 is accepted by the adapter while the standalone
validator rejects it. -/
theorem get_embedding_validates_length_only_witness :
    ((⟨none, none⟩ : DetectedFace).embedding = none)
    ∧ ((⟨some nanEmb, none⟩ : DetectedFace).embedding = some nanEmb)
    ∧ nanEmb.length = 512
    ∧ get_embedding true 512 true [⟨none, none⟩]
      = .error ⟨"Invalid embedding extracted. Expected size " ++ toString (512 : ℕ)
          ++ ", got None", .INVALID_EMBEDDING⟩
    ∧ get_embedding true 512 true [⟨some nanEmb, none⟩]
      = .ok (nanEmb, if true then (none : Option ℝ) else none)
    ∧ is_valid_embedding nanEmb 512 = false := by
  have hlen : nanEmb.length = 512 := by
    simp only [nanEmb, List.length_replicate]
  have hnan : nanEmb.any (fun v => v.isNaN) = true := by
    simp only [List.any_eq_true]
    refine ⟨FVal.nan, ?_, rfl⟩
    simp only [nanEmb]
    exact List.mem_replicate.mpr ⟨by norm_num, rfl⟩
  refine ⟨rfl, rfl, hlen, ?_, ?_, ?_⟩
  · exact (get_embedding_validates_length_only 512 true ⟨none, none⟩).1 rfl
  · exact (get_embedding_validates_length_only 512 true ⟨some nanEmb, none⟩).2.2.1 nanEmb rfl hlen
  · exact (get_embedding_validates_length_only 512 true ⟨some nanEmb, none⟩).2.2.2 nanEmb hlen hnan

/-- `ReferenceEmbedding` from api_schemas.py: identifier plus embedding. -/
structure ReferenceEmbedding where
  id : String
  embedding : List ℝ

/-- `MatchResult` from api_schemas.py: identifier, distance, similarity. -/
structure MatchResult where
  id : String
  distance : ℝ
  similarity : ℝ

/-- One iteration of the loop body in `find_best_match`: compute distance
and similarity for one reference and build its MatchResult. -/
noncomputable def matchFor (query : List ℝ) (metric : String) (ref : ReferenceEmbedding) :
    Except String MatchResult :=
  match calculate_distance query ref.embedding metric with
  | .error e => .error e
  | .ok distance =>
    match distance_to_similarity distance metric with
    | .error e => .error e
    | .ok similarity => .ok ⟨ref.id, distance, similarity⟩

/-- The match-building loop of `find_best_match`, aborting at the first
raised ValueError. -/
noncomputable def computeMatches (query : List ℝ) (metric : String) :
    List ReferenceEmbedding → Except String (List MatchResult)
  | [] => .ok []
  | ref :: rest =>
    match matchFor query metric ref with
    | .error e => .error e
    | .ok m =>
      match computeMatches query metric rest with
      | .error e => .error e
      | .ok ms => .ok (m :: ms)

/-- One step of a stable insertion sort on the distance key: the new element
is placed after every already-placed element whose distance is ≤ its own. -/
noncomputable def insertByDistance (m : MatchResult) : List MatchResult → List MatchResult
  | [] => [m]
  | x :: xs => if m.distance < x.distance then m :: x :: xs else x :: insertByDistance m xs

/-- Python's `matches.sort(key=lambda x: x.distance)` — Timsort, a stable
ascending sort — modelled as a left fold of stable insertions. -/
noncomputable def sortByDistance (l : List MatchResult) : List MatchResult :=
  l.foldl (fun acc m => insertByDistance m acc) []

/-- `find_best_match` from embedding_utils.py: build a MatchResult per
reference, sort by distance ascending, return `(all_matches, best_match)`
with the best match the head of the sorted list; on an empty reference list
`matches[0]` raises IndexError, modelled as `.error`. -/
noncomputable def find_best_match (query_embedding : List ℝ)
    (reference_embeddings : List ReferenceEmbedding) (metric : String) :
    Except String (List MatchResult × MatchResult) :=
  match computeMatches query_embedding metric reference_embeddings with
  | .error e => .error e
  | .ok matchList =>
    match sortByDistance matchList with
    | [] => .error "IndexError: list index out of range"
    | best :: rest => .ok (best :: rest, best)

/-- The comparison on the sorting key. -/
def distLE (a b : MatchResult) : Prop := a.distance ≤ b.distance

lemma insertByDistance_perm (m : MatchResult) (l : List MatchResult) :
    (insertByDistance m l).Perm (m :: l) := by
  induction l with
  | nil => exact List.Perm.refl _
  | cons x xs ih =>
    simp only [insertByDistance]
    by_cases h : m.distance < x.distance
    · rw [if_pos h]
    · rw [if_neg h]
      exact ((ih).cons x).trans (List.Perm.swap m x xs)

lemma insertByDistance_pairwise (m : MatchResult) (l : List MatchResult)
    (h : l.Pairwise distLE) : (insertByDistance m l).Pairwise distLE := by
  induction l with
  | nil => exact List.pairwise_singleton _ _
  | cons x xs ih =>
    rcases List.pairwise_cons.mp h with ⟨hx, hxs⟩
    simp only [insertByDistance]
    by_cases hlt : m.distance < x.distance
    · rw [if_pos hlt]
      refine List.pairwise_cons.mpr ⟨?_, h⟩
      intro y hy
      rcases List.mem_cons.mp hy with rfl | hy2
      · exact le_of_lt hlt
      · exact le_trans (le_of_lt hlt) (hx y hy2)
    · rw [if_neg hlt]
      refine List.pairwise_cons.mpr ⟨?_, ih hxs⟩
      intro y hy
      rcases List.mem_cons.mp ((insertByDistance_perm m xs).mem_iff.mp hy) with rfl | hy2
      · exact le_of_not_lt hlt
      · exact hx y hy2

lemma insertByDistance_filter (d : ℝ) (m : MatchResult) (l : List MatchResult)
    (h : l.Pairwise distLE) :
    (insertByDistance m l).filter (fun x => decide (x.distance = d))
      = l.filter (fun x => decide (x.distance = d))
        ++ (if m.distance = d then [m] else []) := by
  induction l with
  | nil =>
    simp only [insertByDistance, List.filter_nil, List.nil_append]
    by_cases hd : m.distance = d
    · rw [List.filter_cons_of_pos (by simpa using hd), List.filter_nil, if_pos hd]
    · rw [List.filter_cons_of_neg (by simpa using hd), List.filter_nil, if_neg hd]
  | cons x xs ih =>
    rcases List.pairwise_cons.mp h with ⟨hx, hxs⟩
    simp only [insertByDistance]
    by_cases hlt : m.distance < x.distance
    · rw [if_pos hlt]
      by_cases hd : m.distance = d
      · have hnone : ∀ y ∈ x :: xs, ¬ ((fun x => decide (x.distance = d)) y = true) := by
          intro y hy
          rcases List.mem_cons.mp hy with rfl | hy2
          · simp only [decide_eq_true_eq]
            intro hyd
            rw [hyd, ← hd] at hlt
            exact lt_irrefl _ hlt
          · simp only [decide_eq_true_eq]
            intro hyd
            have hxy : x.distance ≤ y.distance := hx y hy2
            rw [hyd, ← hd] at hxy
            exact absurd hxy (not_le.mpr hlt)
        rw [List.filter_cons_of_pos (by simpa using hd),
          List.filter_eq_nil_iff.mpr hnone, if_pos hd]
        rfl
      · rw [List.filter_cons_of_neg (by simpa using hd), if_neg hd, List.append_nil]
    · rw [if_neg hlt]
      by_cases hpx : x.distance = d
      · rw [List.filter_cons_of_pos (by simpa using hpx),
          List.filter_cons_of_pos (by simpa using hpx), ih hxs, List.cons_append]
      · rw [List.filter_cons_of_neg (by simpa using hpx),
          List.filter_cons_of_neg (by simpa using hpx), ih hxs]

lemma sortByDistance_append (l : List MatchResult) (m : MatchResult) :
    sortByDistance (l ++ [m]) = insertByDistance m (sortByDistance l) := by
  simp [sortByDistance, List.foldl_append]

lemma sortByDistance_pairwise (l : List MatchResult) :
    (sortByDistance l).Pairwise distLE := by
  induction l using List.reverseRecOn with
  | nil => exact List.Pairwise.nil
  | append_singleton l m ih =>
    rw [sortByDistance_append]
    exact insertByDistance_pairwise m _ ih

lemma sortByDistance_perm (l : List MatchResult) : (sortByDistance l).Perm l := by
  induction l using List.reverseRecOn with
  | nil => exact List.Perm.refl _
  | append_singleton l m ih =>
    rw [sortByDistance_append]
    exact ((insertByDistance_perm m _).trans (ih.cons m)).trans
      (List.perm_append_singleton m l).symm

lemma sortByDistance_filter (l : List MatchResult) (d : ℝ) :
    (sortByDistance l).filter (fun x => decide (x.distance = d))
      = l.filter (fun x => decide (x.distance = d)) := by
  induction l using List.reverseRecOn with
  | nil => rfl
  | append_singleton l m ih =>
    rw [sortByDistance_append,
      insertByDistance_filter d m _ (sortByDistance_pairwise l), ih, List.filter_append]
    congr 1
    by_cases hd : m.distance = d
    · rw [if_pos hd, List.filter_cons_of_pos (by simpa using hd), List.filter_nil]
    · rw [if_neg hd, List.filter_cons_of_neg (by simpa using hd), List.filter_nil]

lemma pairwise_head_min (b : MatchResult) (rest : List MatchResult)
    (h : (b :: rest).Pairwise distLE) : ∀ y ∈ b :: rest, b.distance ≤ y.distance := by
  intro y hy
  rcases List.mem_cons.mp hy with rfl | hy2
  · exact le_refl _
  · exact (List.pairwise_cons.mp h).1 y hy2

lemma matchFor_ok (query : List ℝ) (metric : String) (ref : ReferenceEmbedding)
    (hm : metric = "cosine" ∨ metric = "euclidean") :
    ∃ dist sim, calculate_distance query ref.embedding metric = .ok dist
      ∧ distance_to_similarity dist metric = .ok sim
      ∧ matchFor query metric ref = .ok ⟨ref.id, dist, sim⟩ := by
  rcases hm with rfl | rfl
  · refine ⟨cosine_distance query ref.embedding,
      max 0 (min 1 (1 - cosine_distance query ref.embedding / 2)), ?_, ?_, ?_⟩
    · simp [calculate_distance]
    · simp [distance_to_similarity]
    · simp [matchFor, calculate_distance, distance_to_similarity]
  · refine ⟨euclidean_distance query ref.embedding,
      max 0 (min 1 (1 / (1 + euclidean_distance query ref.embedding))), ?_, ?_, ?_⟩
    · simp [calculate_distance]
    · simp [distance_to_similarity]
    · simp [matchFor, calculate_distance, distance_to_similarity]

lemma computeMatches_ok (query : List ℝ) (metric : String)
    (hm : metric = "cosine" ∨ metric = "euclidean") (refs : List ReferenceEmbedding) :
    ∃ ms : List MatchResult, computeMatches query metric refs = .ok ms
      ∧ ms.length = refs.length
      ∧ (∀ ref ∈ refs, ∃ m ∈ ms, m.id = ref.id
          ∧ calculate_distance query ref.embedding metric = .ok m.distance) := by
  induction refs with
  | nil => exact ⟨[], rfl, rfl, by simp⟩
  | cons ref rest ih =>
    rcases ih with ⟨ms, hms, hlen, hmem⟩
    rcases matchFor_ok query metric ref hm with ⟨dist, sim, hdist, hsim, hmf⟩
    refine ⟨⟨ref.id, dist, sim⟩ :: ms, ?_, by simp [hlen], ?_⟩
    · simp only [computeMatches, hmf, hms]
    · intro r hr
      rcases List.mem_cons.mp hr with rfl | hr2
      · exact ⟨⟨r.id, dist, sim⟩, List.mem_cons_self _ _, rfl, hdist⟩
      · rcases hmem r hr2 with ⟨m, hmm, hid, hd⟩
        exact ⟨m, List.mem_cons_of_mem _ hmm, hid, hd⟩

/-- C3: for a supported metric, `find_best_match` on a nonempty reference
list succeeds and returns the computed matches sorted by distance ascending
(a permutation of the per-reference results), stably — for every key value
the sorted list restricted to that key equals the input restricted to that
key, so ties keep input order — with the designated best match equal to the
head of the sorted list, whose distance is minimal over all matches and over
every reference's computed distance; on the empty reference list it fails
(IndexError) instead of returning a result. -/
theorem find_best_match_spec (query : List ℝ) (refs : List ReferenceEmbedding)
    (metric : String) (hm : metric = "cosine" ∨ metric = "euclidean") :
    (refs = [] → find_best_match query refs metric
      = .error "IndexError: list index out of range")
    ∧ (refs ≠ [] → ∃ ms allMatches best,
        computeMatches query metric refs = .ok ms
        ∧ find_best_match query refs metric = .ok (allMatches, best)
        ∧ allMatches.Perm ms
        ∧ allMatches.Pairwise distLE
        ∧ (∀ d : ℝ, allMatches.filter (fun x => decide (x.distance = d))
            = ms.filter (fun x => decide (x.distance = d)))
        ∧ allMatches.head? = some best
        ∧ (∀ m ∈ allMatches, best.distance ≤ m.distance)
        ∧ (∀ ref ∈ refs, ∀ dref, calculate_distance query ref.embedding metric = .ok dref →
            best.distance ≤ dref)) := by
  constructor
  · intro h
    subst h
    rfl
  · intro hne
    rcases computeMatches_ok query metric hm refs with ⟨ms, hms, hlen, hmem⟩
    have hmsne : ms ≠ [] := by
      intro h
      subst h
      exact hne (List.length_eq_zero.mp hlen.symm)
    have hsortne : sortByDistance ms ≠ [] := by
      intro h
      have hl := (sortByDistance_perm ms).length_eq
      rw [h] at hl
      exact hmsne (List.length_eq_zero.mp hl.symm)
    obtain ⟨best, rest, hbr⟩ := List.exists_cons_of_ne_nil hsortne
    have hp := sortByDistance_pairwise ms
    refine ⟨ms, sortByDistance ms, best, hms, ?_, sortByDistance_perm ms,
      sortByDistance_pairwise ms, sortByDistance_filter ms, ?_, ?_, ?_⟩
    · simp only [find_best_match, hms, hbr]
    · rw [hbr]
      rfl
    · intro m hmm
      rw [hbr] at hp hmm
      exact pairwise_head_min best rest hp m hmm
    · intro ref href dref hd
      rcases hmem ref href with ⟨m, hmm, hid, hdm⟩
      have hdd : dref = m.distance := by
        rw [hd] at hdm
        exact Except.ok.inj hdm
      rw [hdd]
      have hmm2 : m ∈ sortByDistance ms := (sortByDistance_perm ms).mem_iff.mpr hmm
      rw [hbr] at hp hmm2
      exact pairwise_head_min best rest hp m hmm2

/-- Witness for C3: the hypotheses hold at the concrete input — metric
"cosine", the single reference ("a", [1]), a nonempty list — and the theorem
yields the full conclusion there. -/
theorem find_best_match_spec_witness :
    ("cosine" = "cosine" ∨ "cosine" = "euclidean")
    ∧ ([(⟨"a", [(1 : ℝ)]⟩ : ReferenceEmbedding)] ≠ [])
    ∧ (∃ ms allMatches best,
        computeMatches [(1 : ℝ)] "cosine" [(⟨"a", [(1 : ℝ)]⟩ : ReferenceEmbedding)] = .ok ms
        ∧ find_best_match [(1 : ℝ)] [(⟨"a", [(1 : ℝ)]⟩ : ReferenceEmbedding)] "cosine"
          = .ok (allMatches, best)
        ∧ allMatches.Perm ms
        ∧ allMatches.Pairwise distLE
        ∧ (∀ d : ℝ, allMatches.filter (fun x => decide (x.distance = d))
            = ms.filter (fun x => decide (x.distance = d)))
        ∧ allMatches.head? = some best
        ∧ (∀ m ∈ allMatches, best.distance ≤ m.distance)
        ∧ (∀ ref ∈ [(⟨"a", [(1 : ℝ)]⟩ : ReferenceEmbedding)], ∀ dref,
            calculate_distance [(1 : ℝ)] ref.embedding "cosine" = .ok dref →
            best.distance ≤ dref)) := by
  refine ⟨Or.inl rfl, by simp, ?_⟩
  exact (find_best_match_spec [(1 : ℝ)] [⟨"a", [(1 : ℝ)]⟩] "cosine" (Or.inl rfl)).2 (by simp)

end FaceRec
